import Mathlib

/-!
Verification of the response-normalization and section-parsing pipeline of the
meeting-summarization backend (`backend/utils/gladia_api.py`,
`backend/utils/gemini_api.py`, `backend/main.py`).

The Python string operations used by the pipeline are embedded as structural
functions over `List Char` so that every definition evaluates inside the kernel.
-/

namespace Notula

/-- Python's default whitespace set for `str.strip` (ASCII part). -/
def isPyWS (c : Char) : Bool :=
  c == ' ' || c == '\t' || c == '\n' || c == '\r' || c == '\x0b' || c == '\x0c'

/-- Trim `isPyWS` characters from both ends of a character list. -/
def stripList (l : List Char) : List Char :=
  ((l.dropWhile isPyWS).reverse.dropWhile isPyWS).reverse

/-- Python `str.strip()` (whitespace-trimming form). -/
def pyStrip (s : String) : String :=
  (stripList s.toList).asString

/-- Python `str.lower()` (ASCII-adequate). -/
def pyLower (s : String) : String :=
  (s.toList.map Char.toLower).asString

/-- Python `str.startswith(pre)`. -/
def pyStartsWith (s pre : String) : Bool :=
  pre.toList.isPrefixOf s.toList

/-- Boolean infix test on character lists. -/
def listInfix (sub : List Char) : List Char → Bool
  | [] => sub.isEmpty
  | c :: rest => sub.isPrefixOf (c :: rest) || listInfix sub rest

/-- Python `sub in s` (substring containment). -/
def pyContains (s sub : String) : Bool :=
  listInfix sub.toList s.toList

/-- Split a character list on a separator character, Python `str.split(sep)`
semantics (adjacent separators yield empty pieces; empty input yields one
empty piece). -/
def splitCharList (sep : Char) : List Char → List (List Char)
  | [] => [[]]
  | c :: rest =>
    let r := splitCharList sep rest
    if c == sep then [] :: r
    else
      match r with
      | h :: t => (c :: h) :: t
      | [] => [[c]]

/-- Python `s.split('\n')`. -/
def pySplitLines (s : String) : List String :=
  (splitCharList '\n' s.toList).map List.asString

/-- Characters after the first occurrence of `sep`; empty if `sep` absent. -/
def afterChar (sep : Char) : List Char → List Char
  | [] => []
  | c :: rest => if c == sep then rest else afterChar sep rest

/-- Python `s.split(':', 1)[1]` (used only when `':' in s`). -/
def pyAfterColon (s : String) : String :=
  (afterChar ':' s.toList).asString

/-- Python `s.replace('*', '')`. -/
def removeStars (s : String) : String :=
  (s.toList.filter (fun c => c != '*')).asString

/-- Python `'\n'.join(xs)`. -/
def joinNL : List String → String
  | [] => ""
  | [x] => x
  | x :: y :: xs => x ++ "\n" ++ joinNL (y :: xs)

/-- Extension part of `os.path.splitext(filename)[1]` for a bare filename:
the suffix from the last dot on, provided some character strictly before
that dot is not itself a dot (CPython's leading-dot rule). -/
def pySplitextExt (filename : String) : String :=
  let revd := filename.toList.reverse
  let afterRev := revd.takeWhile (fun c => c != '.')
  match revd.dropWhile (fun c => c != '.') with
  | [] => ""
  | _ :: beforeRev =>
    if beforeRev.any (fun c => c != '.') then ('.' :: afterRev.reverse).asString
    else ""

/-! ## JSON model for transcription-provider payloads -/

/-- A JSON value as handled by `_extract_transcript` in
`backend/utils/gladia_api.py`. Objects are association lists with
distinct keys (Python `dict`). -/
inductive Json where
  | str : String → Json
  | num : Int → Json
  | bool : Bool → Json
  | null : Json
  | arr : List Json → Json
  | obj : List (String × Json) → Json

/-- Python `d.get(k)` on an object's field list. -/
def jsonGet (fields : List (String × Json)) (k : String) : Option Json :=
  match fields with
  | [] => none
  | (k2, v) :: rest => if k2 == k then some v else jsonGet rest k

/-- First key in `keys` whose value in `fields` is a string; mirrors the
`for k in (...): val = d.get(k); if isinstance(val, str)` loops of
`_extract_transcript`. -/
def firstStringKey (fields : List (String × Json)) (keys : List String) : Option String :=
  match keys with
  | [] => none
  | k :: rest =>
    match jsonGet fields k with
    | some (.str s) => some s
    | _ => firstStringKey fields rest

/-- Per-element recovery inside the `prediction`-is-a-list branch of
`_extract_transcript`: a dict element tries the five preferred keys,
a string element is taken directly, anything else contributes nothing. -/
def listItemText : Json → Option String
  | .obj fields => firstStringKey fields ["transcription", "transcript", "text", "sentence", "segment"]
  | .str s => some s
  | _ => none

/-- All per-element strings recovered from a `prediction` list, in order. -/
def collectTexts : List Json → List String
  | [] => []
  | item :: rest =>
    match listItemText item with
    | some s => s :: collectTexts rest
    | none => collectTexts rest

/-- One `result`/`data` container probe of `_extract_transcript`: if the
container key holds a dict, try `text`, `transcription`, `full_text`,
`prediction` on it, in that order. -/
def containerStep (result : List (String × Json)) (ck : String) : Option String :=
  match jsonGet result ck with
  | some (.obj fields) => firstStringKey fields ["text", "transcription", "full_text", "prediction"]
  | _ => none

/-- `_extract_transcript` from `backend/utils/gladia_api.py`: recover a
transcript string from a provider payload (given as the payload object's
field list), trying the documented shapes in order. -/
def extract_transcript (result : List (String × Json)) : Option String :=
  let step1 : Option String :=
    match jsonGet result "prediction" with
    | some (.str s) => some s
    | some (.arr items) =>
      let texts := collectTexts items
      if texts.isEmpty then none else some (joinNL texts)
    | some (.obj fields) => firstStringKey fields ["transcript", "text", "sentence", "segment"]
    | _ => none
  match step1 with
  | some s => some s
  | none =>
    match firstStringKey result ["text", "transcription", "full_text"] with
    | some s => some s
    | none =>
      match containerStep result "result" with
      | some s => some s
      | none => containerStep result "data"

/-! ## Summary section parser (`parse_gemini_response`) -/

/-- The three summary sections tracked by the parser's `current_section`. -/
inductive SectionTag where
  | agenda
  | summary
  | actionItems
deriving DecidableEq, Repr

/-- The parser's output dictionary `{"agenda": _, "summary": _, "action_items": _}`. -/
structure SummaryData where
  agenda : String
  summary : String
  action_items : String
deriving DecidableEq, Repr

/-- `summary_data[current_section] = v`. -/
def setSection (sd : SummaryData) : SectionTag → String → SummaryData
  | .agenda, v => { sd with agenda := v }
  | .summary, v => { sd with summary := v }
  | .actionItems, v => { sd with action_items := v }

/-- Loop state of `parse_gemini_response`: the dictionary built so far,
`current_section`, and `section_content`. -/
structure ParseState where
  data : SummaryData
  cur : Option SectionTag
  content : List String
deriving DecidableEq, Repr

/-- Header test for the agenda section (first `if` of the line loop):
lowercased line starts with a canonical agenda heading, or mentions
"agenda" together with a colon. -/
def isAgendaHeader (line : String) : Bool :=
  pyStartsWith (pyLower line) "**agenda:**" ||
    pyStartsWith (pyLower line) "agenda:" ||
    (pyContains (pyLower line) "agenda" && pyContains line ":")

/-- Header test for the summary section (second branch of the line loop). -/
def isSummaryHeader (line : String) : Bool :=
  pyStartsWith (pyLower line) "**ringkasan:**" ||
    pyStartsWith (pyLower line) "ringkasan:" ||
    pyStartsWith (pyLower line) "**summary:**" ||
    pyStartsWith (pyLower line) "summary:" ||
    (pyContains (pyLower line) "ringkasan" && pyContains line ":") ||
    (pyContains (pyLower line) "summary" && pyContains line ":")

/-- Header test for the action-items section (third branch of the line loop). -/
def isActionItemsHeader (line : String) : Bool :=
  pyStartsWith (pyLower line) "**action items:**" ||
    pyStartsWith (pyLower line) "action items:" ||
    (pyContains (pyLower line) "action items" && pyContains line ":")

/-- A line recognized as some section header (in the parser's fixed priority
order the first match wins; this is the disjunction of all three tests). -/
def isAnyHeader (line : String) : Bool :=
  isAgendaHeader line || isSummaryHeader line || isActionItemsHeader line

/-- `if current_section and section_content: summary_data[current_section] = '\n'.join(section_content).strip()`. -/
def flushSection (st : ParseState) : SummaryData :=
  match st.cur with
  | some sec => if st.content.isEmpty then st.data else setSection st.data sec (pyStrip (joinNL st.content))
  | none => st.data

/-- Open a newly recognized section: flush the previous one, reset the
accumulator, and seed it with the text after the header's colon when that
text is non-empty and not the bare string `**`. -/
def openSection (st : ParseState) (sec : SectionTag) (line : String) : ParseState :=
  let seeded : List String :=
    if pyContains line ":" then
      let ac := pyStrip (pyAfterColon line)
      if ac != "" && ac != "**" then [ac] else []
    else []
  ⟨flushSection st, some sec, seeded⟩

/-- Append a cleaned content line to the open section's accumulator
(`if clean_line: section_content.append(clean_line)`). -/
def contentAppend (st : ParseState) (clean : String) : ParseState :=
  if clean == "" then st else { st with content := st.content ++ [clean] }

/-- One iteration of the line loop of `parse_gemini_response`: strip the
line, test the three header patterns in order, otherwise treat it as a
content line when a section is open, the line is non-empty, and it does
not begin with `**`. -/
def processLine (st : ParseState) (rawLine : String) : ParseState :=
  if isAgendaHeader (pyStrip rawLine) then openSection st .agenda (pyStrip rawLine)
  else if isSummaryHeader (pyStrip rawLine) then openSection st .summary (pyStrip rawLine)
  else if isActionItemsHeader (pyStrip rawLine) then openSection st .actionItems (pyStrip rawLine)
  else if st.cur.isSome && pyStrip rawLine != "" && !pyStartsWith (pyStrip rawLine) "**" then
    contentAppend st (pyStrip (removeStars (pyStrip rawLine)))
  else st

/-- Placeholder stored in `agenda` by the total-parse-failure fallback. -/
def fallbackAgenda : String := "Tidak dapat mengurai agenda dari transkrip"

/-- Placeholder stored in `action_items` by the total-parse-failure fallback. -/
def fallbackActionItems : String := "Tidak dapat mengurai action items dari transkrip"

/-- Initial loop state: empty dictionary, no open section, empty accumulator. -/
def initState : ParseState := ⟨⟨"", "", ""⟩, none, []⟩

/-- `parse_gemini_response` from `backend/utils/gemini_api.py`: scan the
trimmed text line by line, flush the final open section, and fall back to
placing the whole trimmed text in `summary` when nothing was extracted. -/
def parse_gemini_response (generated_text : String) : SummaryData :=
  let st := (pySplitLines (pyStrip generated_text)).foldl processLine initState
  let sd := flushSection st
  if sd.agenda == "" && sd.summary == "" && sd.action_items == "" then
    ⟨fallbackAgenda, pyStrip generated_text, fallbackActionItems⟩
  else sd

/-! ## Summary presenter (`format_summary_for_frontend`) -/

/-- The client-facing projection returned by `format_summary_for_frontend`. -/
structure FormattedSummary where
  summary : String
  agenda : String
  key_points : String
  action_items : String
deriving DecidableEq, Repr

/-- Python `d.get(k, default)` on a string-valued dictionary. -/
def dictGet (d : List (String × String)) (k default : String) : String :=
  match d with
  | [] => default
  | (k2, v) :: rest => if k2 == k then v else dictGet rest k default

/-- The dictionary literal `{"agenda": .., "summary": .., "action_items": ..}`
built by `parse_gemini_response`: all three keys are always present. -/
def SummaryData.toDict (sd : SummaryData) : List (String × String) :=
  [("agenda", sd.agenda), ("summary", sd.summary), ("action_items", sd.action_items)]

/-- Default used by the presenter when the `agenda` key is missing. -/
def noAgenda : String := "Tidak ada agenda yang teridentifikasi"

/-- Default used by the presenter when the `summary` key is missing. -/
def noSummary : String := "Tidak ada ringkasan tersedia"

/-- Default used by the presenter when the `action_items` key is missing. -/
def noActionItems : String := "Tidak ada action items yang teridentifikasi"

/-- `format_summary_for_frontend` from `backend/utils/gemini_api.py`:
fetch the three fields with `dict.get` defaults, build the composite
summary block, and expose each field individually (`key_points` aliases
the narrative `summary` field). -/
def format_summary_for_frontend (summary_data : List (String × String)) : FormattedSummary :=
  let a := dictGet summary_data "agenda" noAgenda
  let s := dictGet summary_data "summary" noSummary
  let ai := dictGet summary_data "action_items" noActionItems
  { summary := "Agenda:\n" ++ a ++ "\n\nRingkasan:\n" ++ s ++ "\n\nAction Items:\n" ++ ai
    agenda := a
    key_points := s
    action_items := ai }

/-! ## Transcription call wrapper (`transcribe_audio_from_upload`) -/

/-- The provider's HTTP answer as observed by the wrapper: a 200 with a JSON
object body, a 200 with a non-JSON body, a non-200 status with an error
body, or a transport-level exception. -/
inductive GladiaHttpResponse where
  | jsonOk : List (String × Json) → GladiaHttpResponse
  | nonJsonOk : String → GladiaHttpResponse
  | errorStatus : Nat → Json → GladiaHttpResponse
  | requestException : String → GladiaHttpResponse

/-- Error value returned in the second component of
`transcribe_audio_from_upload`'s result: a plain message string, the
no-transcript-field diagnostic dict (carrying the payload's top-level
keys), or the non-200 status dict. -/
inductive TransError where
  | message : String → TransError
  | noTranscriptField : List String → TransError
  | statusError : Nat → Json → TransError

/-- Python truthiness of an `Optional[str]`: neither `None` nor `""`. -/
def truthyStr : Option String → Bool
  | some s => s != ""
  | none => false

/-- `transcribe_audio_from_upload` from `backend/utils/gladia_api.py`,
as a function of the provider's HTTP answer: on a 200 JSON body, run
`_extract_transcript`; a falsy result (absent or empty transcript) yields
`(None, diagnostic)`, otherwise `(transcript, None)`. Non-200, non-JSON
and exception answers yield the corresponding error values. -/
def transcribe_audio_from_upload (resp : GladiaHttpResponse) : Option String × Option TransError :=
  match resp with
  | .jsonOk result =>
    let t := extract_transcript result
    if truthyStr t then (t, none)
    else (none, some (.noTranscriptField (result.map Prod.fst)))
  | .nonJsonOk body => (none, some (.message ("Gladia returned non-JSON 200 response: " ++ body)))
  | .errorStatus st err => (none, some (.statusError st err))
  | .requestException e => (none, some (.message e))

/-! ## Pipeline orchestrator (`backend/main.py`) -/

/-- An uploaded file as validation sees it: the original filename and the
byte count `len(content)` (the bytes themselves are only forwarded to the
provider and never inspected by the orchestrator). -/
structure UploadFile where
  filename : String
  size : Nat
deriving DecidableEq, Repr

/-- The fixed extension allow-list of `/upload` and `/transcribe`. -/
def allowed_extensions : List String :=
  [".mp3", ".wav", ".mp4", ".avi", ".mov", ".m4a", ".flac", ".ogg"]

/-- Which validation check rejected the request with HTTP 400. -/
inductive ValidationReason where
  | noFile
  | emptyFile
  | unsupportedType
deriving DecidableEq, Repr

/-- Outcome of `generate_meeting_summary` as checked by the endpoints:
either a parsed summary dictionary, or a falsy/`_error` result with its
`details` value. -/
inductive GeminiOutcome where
  | ok : SummaryData → GeminiOutcome
  | err : String → GeminiOutcome

/-- Outcome of the `/upload` endpoint (`upload_and_process_meeting`). -/
inductive UploadResult where
  | badRequest : ValidationReason → UploadResult
  | payloadTooLarge : UploadResult
  | transcriptionFailure : Option TransError → UploadResult
  | summarizationFailure : UploadResult
  | success : String → FormattedSummary → UploadResult

/-- HTTP status code raised or returned for each `/upload` outcome. -/
def UploadResult.status : UploadResult → Nat
  | .badRequest _ => 400
  | .payloadTooLarge => 413
  | .transcriptionFailure _ => 500
  | .summarizationFailure => 502
  | .success _ _ => 200

/-- `provider` tag carried in the error detail of each failing `/upload`
outcome (`"gladia"` for transcription failures, `"gemini"` for
summarization failures). -/
def UploadResult.provider : UploadResult → Option String
  | .transcriptionFailure _ => some "gladia"
  | .summarizationFailure => some "gemini"
  | _ => none

/-- Whether the outcome is one of the validation rejections (400/413). -/
def UploadResult.isValidationFailure : UploadResult → Bool
  | .badRequest _ => true
  | .payloadTooLarge => true
  | _ => false

/-- A validation rejection: HTTP 400 with a reason, or HTTP 413. -/
inductive ValidationError where
  | badRequest : ValidationReason → ValidationError
  | payloadTooLarge : ValidationError
deriving DecidableEq, Repr

/-- The `/upload` outcome corresponding to a validation rejection. -/
def ValidationError.toUploadResult : ValidationError → UploadResult
  | .badRequest r => .badRequest r
  | .payloadTooLarge => .payloadTooLarge

/-- The validation gate shared by `/upload` and `/transcribe`: file present,
`len(content) ≤ 100*1024*1024`, `len(content) ≠ 0`, and the lowercased
filename's extension in the allow-list, checked in that order. -/
def validateUpload (file : Option UploadFile) : Option ValidationError :=
  match file with
  | none => some (.badRequest .noFile)
  | some f =>
    if f.size > 100 * 1024 * 1024 then some .payloadTooLarge
    else if f.size == 0 then some (.badRequest .emptyFile)
    else if !(allowed_extensions.contains (pySplitextExt (pyLower f.filename))) then
      some (.badRequest .unsupportedType)
    else none

/-- `upload_and_process_meeting` (`POST /upload`): validation, then the
transcription collaborator, then the summarization collaborator, then the
presenter. The two `Nat` components count invocations of the transcription
and summarization collaborators. -/
def upload_pipeline (file : Option UploadFile)
    (gladia : UploadFile → GladiaHttpResponse)
    (gemini : String → GeminiOutcome) : UploadResult × Nat × Nat :=
  match file with
  | none => (.badRequest .noFile, 0, 0)
  | some f =>
    match validateUpload (some f) with
    | some (.badRequest r) => (.badRequest r, 0, 0)
    | some .payloadTooLarge => (.payloadTooLarge, 0, 0)
    | none =>
      let (transcript, terr) := transcribe_audio_from_upload (gladia f)
      if truthyStr transcript then
        match gemini (transcript.getD "") with
        | .err _ => (.summarizationFailure, 1, 1)
        | .ok sd => (.success (transcript.getD "") (format_summary_for_frontend sd.toDict), 1, 1)
      else (.transcriptionFailure terr, 1, 0)

/-- Outcome of the `/transcribe` endpoint (`transcribe_only`). -/
inductive TranscribeOutcome where
  | badRequest : ValidationReason → TranscribeOutcome
  | payloadTooLarge : TranscribeOutcome
  | transcriptionFailure : Option TransError → TranscribeOutcome
  | success : String → TranscribeOutcome

/-- HTTP status code for each `/transcribe` outcome. -/
def TranscribeOutcome.status : TranscribeOutcome → Nat
  | .badRequest _ => 400
  | .payloadTooLarge => 413
  | .transcriptionFailure _ => 500
  | .success _ => 200

/-- Whether a `/transcribe` outcome is a validation rejection (400/413). -/
def TranscribeOutcome.isValidationFailure : TranscribeOutcome → Bool
  | .badRequest _ => true
  | .payloadTooLarge => true
  | _ => false

/-- The `/transcribe` outcome corresponding to a validation rejection. -/
def ValidationError.toTranscribeOutcome : ValidationError → TranscribeOutcome
  | .badRequest r => .badRequest r
  | .payloadTooLarge => .payloadTooLarge

/-- `transcribe_only` (`POST /transcribe`): the same validation gate, then
the transcription collaborator only. The `Nat` counts its invocations. -/
def transcribe_pipeline (file : Option UploadFile)
    (gladia : UploadFile → GladiaHttpResponse) : TranscribeOutcome × Nat :=
  match file with
  | none => (.badRequest .noFile, 0)
  | some f =>
    match validateUpload (some f) with
    | some (.badRequest r) => (.badRequest r, 0)
    | some .payloadTooLarge => (.payloadTooLarge, 0)
    | none =>
      let (transcript, terr) := transcribe_audio_from_upload (gladia f)
      if truthyStr transcript then (.success (transcript.getD ""), 1)
      else (.transcriptionFailure terr, 1)

/-- Outcome of the `/summarize` endpoint (`summarize_transcript`). -/
inductive SummarizeOutcome where
  | badRequest : SummarizeOutcome
  | summarizationFailure : SummarizeOutcome
  | success : FormattedSummary → SummarizeOutcome
deriving DecidableEq, Repr

/-- HTTP status code for each `/summarize` outcome (400 / 502 / 200). -/
def SummarizeOutcome.status : SummarizeOutcome → Nat
  | .badRequest => 400
  | .summarizationFailure => 502
  | .success _ => 200

/-- `summarize_transcript` (`POST /summarize`): strip
`body.get("transcript", "")`, reject empty or under-10-character results
with 400, otherwise call the summarization collaborator and present. The
`Nat` counts collaborator invocations. -/
def summarize_pipeline (transcript_field : Option String)
    (gemini : String → GeminiOutcome) : SummarizeOutcome × Nat :=
  let transcript := pyStrip (transcript_field.getD "")
  if transcript == "" then (.badRequest, 0)
  else if transcript.length < 10 then (.badRequest, 0)
  else
    match gemini transcript with
    | .err _ => (.summarizationFailure, 1)
    | .ok sd => (.success (format_summary_for_frontend sd.toDict), 1)

/-- The validation-failure condition as the spec enumerates it for `/upload`:
no file, empty file, size over 100 MiB, or extension outside the allow-list
(case-insensitively). Stated from the claim's words, to be compared with the
pipeline's behaviour. -/
def validationFailsSpec (file : Option UploadFile) : Bool :=
  match file with
  | none => true
  | some f =>
    f.size == 0 || decide (f.size > 100 * 1024 * 1024) ||
      !(allowed_extensions.contains (pySplitextExt (pyLower f.filename)))

/-- Transcription stub used by witnesses: a fixed 200 JSON answer. -/
def glStub : UploadFile → GladiaHttpResponse :=
  fun _ => .jsonOk [("prediction", Json.str "hello world")]

/-- Summarization stub used by witnesses: a fixed parsed summary. -/
def gmStub : String → GeminiOutcome :=
  fun _ => .ok ⟨"agenda body", "summary body", "items body"⟩

end Notula

namespace Notula

/-! ## Helper lemmas -/

theorem dropWhile_stable (p : Char → Bool) (l : List Char) :
    (l.dropWhile p).dropWhile p = l.dropWhile p := by
  induction l with
  | nil => rfl
  | cons c t ih =>
    by_cases h : p c
    · simp [List.dropWhile_cons, h, ih]
    · simp [List.dropWhile_cons, h]

theorem dropWhile_head_cases (p : Char → Bool) (l : List Char) :
    l.dropWhile p = [] ∨ ∃ c t, l.dropWhile p = c :: t ∧ p c = false := by
  induction l with
  | nil => exact Or.inl rfl
  | cons a t ih =>
    by_cases h : p a
    · simpa [List.dropWhile_cons, h] using ih
    · exact Or.inr ⟨a, t, by simp [List.dropWhile_cons, h], by simpa using h⟩

theorem dropWhile_append_singleton (p : Char → Bool) (c : Char) (hc : p c = false)
    (xs : List Char) : (xs ++ [c]).dropWhile p = xs.dropWhile p ++ [c] := by
  induction xs with
  | nil => simp [List.dropWhile_cons, hc]
  | cons a t ih =>
    by_cases h : p a
    · simp [List.dropWhile_cons, h, ih]
    · simp [List.dropWhile_cons, h]

theorem stripList_idem (l : List Char) : stripList (stripList l) = stripList l := by
  unfold stripList
  rcases dropWhile_head_cases isPyWS l with hd | ⟨c, t, hd, hc⟩
  · simp [hd]
  · rw [hd]
    have hrev : (c :: t).reverse = t.reverse ++ [c] := by simp
    rw [hrev, dropWhile_append_singleton isPyWS c hc]
    set f := t.reverse.dropWhile isPyWS with hf
    have h1 : (f ++ [c]).reverse = c :: f.reverse := by simp
    rw [h1]
    have h2 : (c :: f.reverse).dropWhile isPyWS = c :: f.reverse := by
      simp [List.dropWhile_cons, hc]
    rw [h2]
    have h3 : (c :: f.reverse).reverse = f ++ [c] := by simp
    rw [h3]
    have h4 : (f ++ [c]).dropWhile isPyWS = f.dropWhile isPyWS ++ [c] :=
      dropWhile_append_singleton isPyWS c hc f
    rw [h4, hf, dropWhile_stable]
    simp

theorem length_dropWhile_le (p : Char → Bool) (l : List Char) :
    (l.dropWhile p).length ≤ l.length := by
  induction l with
  | nil => simp
  | cons a t ih =>
    by_cases h : p a
    · simp only [List.dropWhile_cons, h, if_pos]
      exact Nat.le_trans ih (Nat.le_succ _)
    · simp [List.dropWhile_cons, h]

theorem toList_asString (l : List Char) : (l.asString).toList = l := rfl

theorem pyStrip_idem (s : String) : pyStrip (pyStrip s) = pyStrip s := by
  unfold pyStrip
  rw [toList_asString, stripList_idem]

theorem stripList_length_le (l : List Char) : (stripList l).length ≤ l.length := by
  unfold stripList
  calc (((l.dropWhile isPyWS).reverse.dropWhile isPyWS).reverse).length
      = ((l.dropWhile isPyWS).reverse.dropWhile isPyWS).length := by simp
    _ ≤ (l.dropWhile isPyWS).reverse.length := length_dropWhile_le _ _
    _ = (l.dropWhile isPyWS).length := by simp
    _ ≤ l.length := length_dropWhile_le _ _

theorem pyStrip_length_le (s : String) : (pyStrip s).length ≤ s.length :=
  stripList_length_le s.toList

theorem processLine_agenda_canonical (st : ParseState) :
    processLine st "**AGENDA:**" = ⟨flushSection st, some .agenda, []⟩ := rfl

theorem processLine_content (st : ParseState) (line : String)
    (hcur : st.cur.isSome = true)
    (hh : isAnyHeader (pyStrip line) = false)
    (hstar : pyStartsWith (pyStrip line) "**" = false)
    (hclean : pyStrip (removeStars (pyStrip line)) ≠ "") :
    processLine st line =
      { st with content := st.content ++ [pyStrip (removeStars (pyStrip line))] } := by
  have hs : pyStrip line ≠ "" := by
    intro he
    apply hclean
    rw [he]
    rfl
  simp only [isAnyHeader, Bool.or_eq_false_iff] at hh
  obtain ⟨⟨ha, hsum⟩, hai⟩ := hh
  simp [processLine, ha, hsum, hai, hcur, hstar, hs, contentAppend, hclean]

theorem processLine_skips_star_line (st : ParseState) (line : String)
    (hh : isAnyHeader (pyStrip line) = false)
    (hstar : pyStartsWith (pyStrip line) "**" = true) :
    processLine st line = st := by
  simp only [isAnyHeader, Bool.or_eq_false_iff] at hh
  obtain ⟨⟨ha, hsum⟩, hai⟩ := hh
  simp [processLine, ha, hsum, hai, hstar]

theorem processLine_no_header (d : SummaryData) (c : List String) (line : String)
    (hh : isAnyHeader (pyStrip line) = false) :
    processLine ⟨d, none, c⟩ line = ⟨d, none, c⟩ := by
  simp only [isAnyHeader, Bool.or_eq_false_iff] at hh
  obtain ⟨⟨ha, hsum⟩, hai⟩ := hh
  simp [processLine, ha, hsum, hai]

theorem foldl_no_header (lines : List String) (d : SummaryData) (c : List String)
    (h : ∀ l ∈ lines, isAnyHeader (pyStrip l) = false) :
    lines.foldl processLine ⟨d, none, c⟩ = ⟨d, none, c⟩ := by
  induction lines with
  | nil => rfl
  | cons a t ih =>
    rw [List.foldl_cons, processLine_no_header d c a (h a (by simp))]
    exact ih (fun l hl => h l (by simp [hl]))

theorem upload_pipeline_of_validate_some (f : UploadFile) (gl : UploadFile → GladiaHttpResponse)
    (gm : String → GeminiOutcome) (v : ValidationError)
    (h : validateUpload (some f) = some v) :
    upload_pipeline (some f) gl gm = (v.toUploadResult, 0, 0) := by
  cases v <;> simp only [upload_pipeline, h] <;> rfl

theorem upload_pipeline_of_validate_none (f : UploadFile) (gl : UploadFile → GladiaHttpResponse)
    (gm : String → GeminiOutcome) (h : validateUpload (some f) = none) :
    (upload_pipeline (some f) gl gm).1.isValidationFailure = false
    ∧ (upload_pipeline (some f) gl gm).2.1 = 1 := by
  simp only [upload_pipeline, h]
  rcases ht : transcribe_audio_from_upload (gl f) with ⟨tr, te⟩
  by_cases htr : truthyStr tr = true
  · cases hg : gm (tr.getD "") <;>
      simp [ht, htr, hg, UploadResult.isValidationFailure]
  · simp [ht, htr, UploadResult.isValidationFailure]

theorem transcribe_pipeline_of_validate_some (f : UploadFile)
    (gl : UploadFile → GladiaHttpResponse) (v : ValidationError)
    (h : validateUpload (some f) = some v) :
    transcribe_pipeline (some f) gl = (v.toTranscribeOutcome, 0) := by
  cases v <;> simp only [transcribe_pipeline, h] <;> rfl

theorem transcribe_pipeline_of_validate_none (f : UploadFile)
    (gl : UploadFile → GladiaHttpResponse) (h : validateUpload (some f) = none) :
    (transcribe_pipeline (some f) gl).1.isValidationFailure = false
    ∧ (transcribe_pipeline (some f) gl).2 = 1 := by
  simp only [transcribe_pipeline, h]
  rcases ht : transcribe_audio_from_upload (gl f) with ⟨tr, te⟩
  by_cases htr : truthyStr tr = true <;>
    simp [ht, htr, TranscribeOutcome.isValidationFailure]

theorem validateUpload_isSome_eq_spec (file : Option UploadFile) :
    (validateUpload file).isSome = validationFailsSpec file := by
  cases file with
  | none => rfl
  | some f =>
    unfold validateUpload validationFailsSpec
    by_cases h1 : f.size > 100 * 1024 * 1024
    · simp [h1]
    · by_cases h2 : f.size = 0
      · simp [h1, h2]
      · have hb : (f.size == 0) = false := beq_eq_false_iff_ne.mpr h2
        by_cases h3 : pySplitextExt (pyLower f.filename) ∈ allowed_extensions
        · simp [h1, hb, h3]
        · simp [h1, hb, h3]

end Notula

/-! ## Claim theorems -/

namespace Notula

/-- C1 counterexample: the Presenter does NOT substitute the "not available"
placeholder for a field holding the empty string — `dict.get` defaults fire
only for missing keys, and `SummarySections` always carries all three keys.
With an empty `agenda`, the individually addressable `agenda` output is the
empty string (not the placeholder), and the placeholder does not occur in
the composite `summary` block either. -/
theorem C1_counterexample :
    (format_summary_for_frontend (SummaryData.mk "" "isi ringkasan" "daftar tugas").toDict).agenda = ""
    ∧ (format_summary_for_frontend (SummaryData.mk "" "isi ringkasan" "daftar tugas").toDict).agenda ≠ noAgenda
    ∧ pyContains
        (format_summary_for_frontend (SummaryData.mk "" "isi ringkasan" "daftar tugas").toDict).summary
        noAgenda = false :=
  ⟨rfl, by decide, by decide⟩

/-- C1 (amended): the Presenter passes every field of a `SummarySections`
value through verbatim — empty strings included — both individually and
inside the composite `summary` block; the fixed Indonesian-language
"not available" defaults are used only when a key is absent from the
dictionary, which cannot happen for a `SummarySections` value. -/
theorem C1_presenter_passthrough (sd : SummaryData) :
    format_summary_for_frontend sd.toDict =
      ⟨"Agenda:\n" ++ sd.agenda ++ "\n\nRingkasan:\n" ++ sd.summary ++ "\n\nAction Items:\n" ++
        sd.action_items, sd.agenda, sd.summary, sd.action_items⟩
    ∧ format_summary_for_frontend [] =
      ⟨"Agenda:\n" ++ noAgenda ++ "\n\nRingkasan:\n" ++ noSummary ++ "\n\nAction Items:\n" ++
        noActionItems, noAgenda, noSummary, noActionItems⟩ :=
  ⟨rfl, rfl⟩

/-- C2 counterexample: for a mapping-valued `prediction`, the Normalizer
does NOT consult the key `transcription`; the payload
`{"prediction": {"transcription": "hello"}}` yields `none`, not
`some "hello"` as the claim states. -/
theorem C2_counterexample :
    extract_transcript [("prediction", Json.obj [("transcription", Json.str "hello")])] = none
    ∧ extract_transcript [("prediction", Json.obj [("transcription", Json.str "hello")])] ≠
        some "hello" :=
  ⟨rfl, by decide⟩

/-- C2 (amended): for a mapping-valued `prediction` the Normalizer looks up
only the four keys `transcript`, `text`, `sentence`, `segment`, in that
order — `transcription` is not in this list, unlike the per-element order
for sequences. `{"prediction": {"transcript": s}}` yields `s`;
`{"prediction": {"transcription": t}}` yields absent; a `transcription`
entry is skipped even when a later key would match. -/
theorem C2_dict_prediction_key_order (s t : String) (rest : List (String × Json)) :
    extract_transcript [("prediction", Json.obj (("transcript", Json.str s) :: rest))] = some s
    ∧ extract_transcript [("prediction", Json.obj [("transcription", Json.str t)])] = none
    ∧ extract_transcript
        [("prediction", Json.obj [("transcription", Json.str t), ("text", Json.str s)])] = some s :=
  ⟨rfl, rfl, rfl⟩

/-- C3 counterexample: a non-header content line beginning with `**` is
dropped, not de-emphasized and appended: in
`"AGENDA:\n**bold**\nitem2"` the open agenda section captures only
`"item2"` and the text `bold` appears nowhere in the parsed agenda. -/
theorem C3_counterexample :
    parse_gemini_response "AGENDA:\n**bold**\nitem2" = ⟨"item2", "", ""⟩
    ∧ pyContains (parse_gemini_response "AGENDA:\n**bold**\nitem2").agenda "bold" = false :=
  ⟨rfl, rfl⟩

/-- C3 (amended): while a section is open, a non-header non-empty line that
does NOT begin with `**` has all `*` characters stripped and, if anything
non-empty remains, is appended to the open section's accumulator; a
non-header line that begins with `**` is silently dropped. -/
theorem C3_content_line_handling (st : ParseState) (line line2 : String)
    (hcur : st.cur.isSome = true)
    (hh : isAnyHeader (pyStrip line) = false)
    (hstar : pyStartsWith (pyStrip line) "**" = false)
    (hclean : pyStrip (removeStars (pyStrip line)) ≠ "")
    (hh2 : isAnyHeader (pyStrip line2) = false)
    (hstar2 : pyStartsWith (pyStrip line2) "**" = true) :
    processLine st line =
      { st with content := st.content ++ [pyStrip (removeStars (pyStrip line))] }
    ∧ processLine st line2 = st :=
  ⟨processLine_content st line hcur hh hstar hclean,
    processLine_skips_star_line st line2 hh2 hstar2⟩

/-- C3 witness: a concrete open-section state, a plain content line that is
appended, and a `**`-initial line that is dropped. -/
theorem C3_content_line_handling_witness :
    processLine ⟨⟨"", "", ""⟩, some SectionTag.agenda, []⟩ "poin satu" =
      ⟨⟨"", "", ""⟩, some SectionTag.agenda, ["poin satu"]⟩
    ∧ processLine ⟨⟨"", "", ""⟩, some SectionTag.agenda, []⟩ "**tebal**" =
      ⟨⟨"", "", ""⟩, some SectionTag.agenda, []⟩ := by
  have h := C3_content_line_handling ⟨⟨"", "", ""⟩, some SectionTag.agenda, []⟩
    "poin satu" "**tebal**" rfl (by decide) (by decide) (by decide) (by decide) (by decide)
  exact ⟨h.1.trans (by decide), h.2⟩

/-- C4 counterexample: the nested-container fallback DOES recover a string
sitting under `result["prediction"]` (and `data["prediction"]`): the claim
that such a payload yields absent is false. -/
theorem C4_counterexample :
    extract_transcript [("result", Json.obj [("prediction", Json.str "halo dunia")])] =
      some "halo dunia"
    ∧ extract_transcript [("result", Json.obj [("prediction", Json.str "halo dunia")])] ≠ none
    ∧ extract_transcript [("data", Json.obj [("prediction", Json.str "halo dunia")])] =
      some "halo dunia" :=
  ⟨rfl, by decide, rfl⟩

/-- C4 (amended): the nested fallback looks for FOUR keys — `text`,
`transcription`, `full_text`, `prediction`, in that order — one level under
`result` and then under `data` (checking `result` before `data`); in
particular a string under `result["prediction"]` or `data["prediction"]`
is recovered, not absent. -/
theorem C4_container_keys (s t : String) :
    extract_transcript [("result", Json.obj [("prediction", Json.str s)])] = some s
    ∧ extract_transcript [("data", Json.obj [("prediction", Json.str s)])] = some s
    ∧ extract_transcript
        [("result", Json.obj [("full_text", Json.str s), ("prediction", Json.str t)])] = some s
    ∧ extract_transcript
        [("result", Json.obj [("text", Json.str s)]), ("data", Json.obj [("text", Json.str t)])] =
      some s :=
  ⟨rfl, rfl, rfl, rfl⟩

/-- C6: the Section Parser is a total function by construction, and on any
input text none of whose lines is recognized as a section header it returns
the fixed "could not parse" placeholders in `agenda` and `action_items`
and the entire trimmed input text in `summary`. -/
theorem C6_no_header_fallback (t : String)
    (h : ∀ l ∈ pySplitLines (pyStrip t), isAnyHeader (pyStrip l) = false) :
    parse_gemini_response t = ⟨fallbackAgenda, pyStrip t, fallbackActionItems⟩ := by
  have hf : (pySplitLines (pyStrip t)).foldl processLine initState = initState :=
    foldl_no_header _ _ _ h
  unfold parse_gemini_response
  rw [hf]
  rfl

/-- C5: when the agenda heading occurs twice, each occurrence followed by a
plain non-empty body line, the stored `agenda` value is the (cleaned) last
body only; the earlier body is overwritten, not appended. The text is given
by its line decomposition; both bodies are non-header content lines. -/
theorem C5_repeated_header_last_wins (t b1 b2 : String)
    (hsplit : pySplitLines (pyStrip t) = ["**AGENDA:**", b1, "**AGENDA:**", b2])
    (hh1 : isAnyHeader (pyStrip b1) = false)
    (hs1 : pyStartsWith (pyStrip b1) "**" = false)
    (hc1 : pyStrip (removeStars (pyStrip b1)) ≠ "")
    (hh2 : isAnyHeader (pyStrip b2) = false)
    (hs2 : pyStartsWith (pyStrip b2) "**" = false)
    (hc2 : pyStrip (removeStars (pyStrip b2)) ≠ "")
    (hdiff : pyStrip (removeStars (pyStrip b1)) ≠ pyStrip (removeStars (pyStrip b2))) :
    parse_gemini_response t = ⟨pyStrip (removeStars (pyStrip b2)), "", ""⟩
    ∧ (parse_gemini_response t).agenda ≠ pyStrip (removeStars (pyStrip b1)) := by
  have hid1 : pyStrip (pyStrip (removeStars (pyStrip b1))) = pyStrip (removeStars (pyStrip b1)) :=
    pyStrip_idem _
  have hid2 : pyStrip (pyStrip (removeStars (pyStrip b2))) = pyStrip (removeStars (pyStrip b2)) :=
    pyStrip_idem _
  have s1 : processLine initState "**AGENDA:**" = ⟨⟨"", "", ""⟩, some .agenda, []⟩ := rfl
  have s2 : processLine ⟨⟨"", "", ""⟩, some .agenda, []⟩ b1 =
      ⟨⟨"", "", ""⟩, some .agenda, [pyStrip (removeStars (pyStrip b1))]⟩ := by
    rw [processLine_content ⟨⟨"", "", ""⟩, some .agenda, []⟩ b1 rfl hh1 hs1 hc1]
    rfl
  have s3 : processLine ⟨⟨"", "", ""⟩, some .agenda, [pyStrip (removeStars (pyStrip b1))]⟩
      "**AGENDA:**" =
      ⟨⟨pyStrip (removeStars (pyStrip b1)), "", ""⟩, some .agenda, []⟩ := by
    rw [processLine_agenda_canonical]
    unfold flushSection
    simp [setSection, joinNL, hid1]
  have s4 : processLine ⟨⟨pyStrip (removeStars (pyStrip b1)), "", ""⟩, some .agenda, []⟩ b2 =
      ⟨⟨pyStrip (removeStars (pyStrip b1)), "", ""⟩, some .agenda,
        [pyStrip (removeStars (pyStrip b2))]⟩ := by
    rw [processLine_content ⟨⟨pyStrip (removeStars (pyStrip b1)), "", ""⟩, some .agenda, []⟩
      b2 rfl hh2 hs2 hc2]
    rfl
  have s5 : flushSection ⟨⟨pyStrip (removeStars (pyStrip b1)), "", ""⟩, some .agenda,
      [pyStrip (removeStars (pyStrip b2))]⟩ = ⟨pyStrip (removeStars (pyStrip b2)), "", ""⟩ := by
    unfold flushSection
    simp [setSection, joinNL, hid2]
  have hcb : (pyStrip (removeStars (pyStrip b2)) == "") = false :=
    beq_eq_false_iff_ne.mpr hc2
  have main : parse_gemini_response t = ⟨pyStrip (removeStars (pyStrip b2)), "", ""⟩ := by
    unfold parse_gemini_response
    rw [hsplit]
    simp only [List.foldl_cons, List.foldl_nil, s1, s2, s3, s4, s5, hcb]
    simp
  refine ⟨main, ?_⟩
  rw [main]
  exact fun hEq => hdiff hEq.symm

/-- C5 witness: a concrete text repeating the agenda heading with two
different bodies keeps only the second body. -/
theorem C5_repeated_header_last_wins_witness :
    parse_gemini_response "**AGENDA:**\npertama\n**AGENDA:**\nkedua" =
      ⟨pyStrip (removeStars (pyStrip "kedua")), "", ""⟩
    ∧ (parse_gemini_response "**AGENDA:**\npertama\n**AGENDA:**\nkedua").agenda ≠
      pyStrip (removeStars (pyStrip "pertama")) :=
  C5_repeated_header_last_wins "**AGENDA:**\npertama\n**AGENDA:**\nkedua" "pertama" "kedua"
    (by decide) (by decide) (by decide) (by decide) (by decide) (by decide) (by decide) (by decide)

/-- C6 witness: a concrete headerless text lands in the fallback shape. -/
theorem C6_no_header_fallback_witness :
    parse_gemini_response "teks polos tanpa heading" =
      ⟨fallbackAgenda, pyStrip "teks polos tanpa heading", fallbackActionItems⟩ :=
  C6_no_header_fallback "teks polos tanpa heading" (by decide)

/-- C7 counterexample: the endpoint strips the transcript before measuring
its length, so the ten-character transcript consisting of nine spaces and
one letter is rejected with 400 without invoking the provider — the claim
that every transcript of exactly 10 characters passes validation is false. -/
theorem C7_counterexample :
    ("         a" : String).length = 10
    ∧ summarize_pipeline (some "         a") gmStub = (.badRequest, 0)
    ∧ (summarize_pipeline (some "         a") gmStub).1.status = 400 :=
  ⟨rfl, rfl, rfl⟩

/-- C7 (amended): `/summarize` rejects with 400 exactly the requests whose
transcript, after stripping surrounding whitespace, is under 10 characters
(missing and empty transcripts strip to length 0); every rejection happens
before the summarization provider is invoked, every 9-character transcript
is rejected, and a 10-character transcript free of surrounding whitespace
passes validation. -/
theorem C7_summarize_validation (s : String) (g : String → GeminiOutcome) :
    ((summarize_pipeline (some s) g).1 = .badRequest ↔ (pyStrip s).length < 10)
    ∧ ((pyStrip s).length < 10 → summarize_pipeline (some s) g = (.badRequest, 0))
    ∧ (s.length ≤ 9 → summarize_pipeline (some s) g = (.badRequest, 0))
    ∧ (pyStrip s = s → s.length = 10 → (summarize_pipeline (some s) g).1 ≠ .badRequest)
    ∧ summarize_pipeline none g = (.badRequest, 0) := by
  have hcore : summarize_pipeline (some s) g =
      (if (pyStrip s).length < 10 then (.badRequest, 0)
       else
         match g (pyStrip s) with
         | .err _ => (.summarizationFailure, 1)
         | .ok sd => (.success (format_summary_for_frontend sd.toDict), 1)) := by
    unfold summarize_pipeline
    by_cases he : pyStrip s = ""
    · simp [he]
    · have hb : (pyStrip s == "") = false := beq_eq_false_iff_ne.mpr he
      simp [hb]
  have hne : 10 ≤ (pyStrip s).length → (summarize_pipeline (some s) g).1 ≠ .badRequest := by
    intro hge
    rw [hcore, if_neg (by omega)]
    cases g (pyStrip s) <;> simp
  refine ⟨⟨?_, ?_⟩, ?_, ?_, ?_, rfl⟩
  · intro hbad
    by_contra hge
    push_neg at hge
    exact hne hge hbad
  · intro hlt
    rw [hcore, if_pos hlt]
  · intro hlt
    rw [hcore, if_pos hlt]
  · intro h9
    have hle : (pyStrip s).length < 10 :=
      Nat.lt_of_le_of_lt (Nat.le_trans (pyStrip_length_le s) h9) (by omega)
    rw [hcore, if_pos hle]
  · intro hstr h10
    apply hne
    rw [hstr, h10]

/-- C7 witness: the whitespace-free 10-character transcript `abcdefghij`
is not rejected by validation. -/
theorem C7_summarize_validation_witness :
    (summarize_pipeline (some "abcdefghij") gmStub).1 ≠ .badRequest :=
  (C7_summarize_validation "abcdefghij" gmStub).2.2.2.1 (by decide) (by decide)

/-- C8: for both `/upload` and `/transcribe`, a file of exactly 100 MiB
(104857600 bytes) passes the size checks whatever its name and whatever the
providers answer, a file of 100 MiB + 1 byte is rejected with 413, and a
0-byte file is rejected with the empty-file 400. -/
theorem C8_size_boundaries (name : String) (gl : UploadFile → GladiaHttpResponse)
    (gm : String → GeminiOutcome) :
    ((upload_pipeline (some ⟨name, 104857600⟩) gl gm).1 ≠ .payloadTooLarge
      ∧ (upload_pipeline (some ⟨name, 104857600⟩) gl gm).1 ≠ .badRequest .emptyFile)
    ∧ (upload_pipeline (some ⟨name, 104857601⟩) gl gm).1 = .payloadTooLarge
    ∧ (upload_pipeline (some ⟨name, 104857601⟩) gl gm).1.status = 413
    ∧ (upload_pipeline (some ⟨name, 0⟩) gl gm).1 = .badRequest .emptyFile
    ∧ (upload_pipeline (some ⟨name, 0⟩) gl gm).1.status = 400
    ∧ ((transcribe_pipeline (some ⟨name, 104857600⟩) gl).1 ≠ .payloadTooLarge
      ∧ (transcribe_pipeline (some ⟨name, 104857600⟩) gl).1 ≠ .badRequest .emptyFile)
    ∧ (transcribe_pipeline (some ⟨name, 104857601⟩) gl).1 = .payloadTooLarge
    ∧ (transcribe_pipeline (some ⟨name, 0⟩) gl).1 = .badRequest .emptyFile := by
  have hv413 : validateUpload (some ⟨name, 104857601⟩) = some .payloadTooLarge := by
    simp [validateUpload]
  have hv0 : validateUpload (some ⟨name, 0⟩) = some (.badRequest .emptyFile) := by
    simp [validateUpload]
  have hvcases :
      validateUpload (some ⟨name, 104857600⟩) = none
      ∨ validateUpload (some ⟨name, 104857600⟩) =
          some (.badRequest .unsupportedType) := by
    unfold validateUpload
    by_cases h3 : pySplitextExt (pyLower name) ∈ allowed_extensions
    · exact Or.inl (by simp [h3])
    · exact Or.inr (by simp [h3])
  have hup : (upload_pipeline (some ⟨name, 104857600⟩) gl gm).1 ≠ .payloadTooLarge
      ∧ (upload_pipeline (some ⟨name, 104857600⟩) gl gm).1 ≠ .badRequest .emptyFile := by
    rcases hvcases with hv | hv
    · have h1 := (upload_pipeline_of_validate_none _ gl gm hv).1
      constructor <;> intro heq <;> rw [heq] at h1 <;> exact Bool.noConfusion h1
    · rw [upload_pipeline_of_validate_some _ gl gm _ hv]
      exact ⟨by simp [ValidationError.toUploadResult], by simp [ValidationError.toUploadResult]⟩
  have htr : (transcribe_pipeline (some ⟨name, 104857600⟩) gl).1 ≠ .payloadTooLarge
      ∧ (transcribe_pipeline (some ⟨name, 104857600⟩) gl).1 ≠ .badRequest .emptyFile := by
    rcases hvcases with hv | hv
    · have h1 := (transcribe_pipeline_of_validate_none _ gl hv).1
      constructor <;> intro heq <;> rw [heq] at h1 <;> exact Bool.noConfusion h1
    · rw [transcribe_pipeline_of_validate_some _ gl _ hv]
      exact ⟨by simp [ValidationError.toTranscribeOutcome],
        by simp [ValidationError.toTranscribeOutcome]⟩
  have e413 := upload_pipeline_of_validate_some ⟨name, 104857601⟩ gl gm _ hv413
  have e0 := upload_pipeline_of_validate_some ⟨name, 0⟩ gl gm _ hv0
  have t413 := transcribe_pipeline_of_validate_some ⟨name, 104857601⟩ gl _ hv413
  have t0 := transcribe_pipeline_of_validate_some ⟨name, 0⟩ gl _ hv0
  refine ⟨hup, ?_, ?_, ?_, ?_, htr, ?_, ?_⟩
  · rw [e413]; rfl
  · rw [e413]; rfl
  · rw [e0]; rfl
  · rw [e0]; rfl
  · rw [t413]; rfl
  · rw [t0]; rfl

/-- C9: `/upload` yields a validation-failure outcome exactly when the
request violates one of the validation rules the spec enumerates (no file,
empty file, over 100 MiB, extension outside the case-insensitive allow
list), and whenever validation fails neither the transcription nor the
summarization collaborator is ever invoked. -/
theorem C9_validation_fail_fast (file : Option UploadFile)
    (gl : UploadFile → GladiaHttpResponse) (gm : String → GeminiOutcome) :
    ((upload_pipeline file gl gm).1.isValidationFailure = validationFailsSpec file)
    ∧ (validationFailsSpec file = true →
        (upload_pipeline file gl gm).2.1 = 0 ∧ (upload_pipeline file gl gm).2.2 = 0) := by
  cases file with
  | none => exact ⟨rfl, fun _ => ⟨rfl, rfl⟩⟩
  | some f =>
    have h3 := validateUpload_isSome_eq_spec (some f)
    rcases hv : validateUpload (some f) with _ | v
    · rw [hv] at h3
      have h1 := upload_pipeline_of_validate_none f gl gm hv
      refine ⟨by rw [h1.1, ← h3]; rfl, ?_⟩
      intro hspec
      rw [← h3] at hspec
      exact absurd hspec (by simp)
    · rw [hv] at h3
      have h2 := upload_pipeline_of_validate_some f gl gm v hv
      refine ⟨?_, fun _ => by rw [h2]; exact ⟨rfl, rfl⟩⟩
      rw [h2, ← h3]
      cases v <;> rfl

/-- C9 witness: a `.pdf` upload is a validation failure and both provider
call counters stay at zero. -/
theorem C9_validation_fail_fast_witness :
    (upload_pipeline (some ⟨"notes.pdf", 1000⟩) glStub gmStub).2.1 = 0
    ∧ (upload_pipeline (some ⟨"notes.pdf", 1000⟩) glStub gmStub).2.2 = 0 :=
  (C9_validation_fail_fast (some ⟨"notes.pdf", 1000⟩) glStub gmStub).2 (by decide)

/-- C10: when the provider's 200 JSON payload makes the Normalizer recover
the empty string, `transcribe_audio_from_upload` returns no transcript plus
the no-transcript diagnostic, and for any upload passing validation both
`/upload` and `/transcribe` answer with the transcription-failure outcome
(HTTP 500, provider gladia) without ever invoking summarization. -/
theorem C10_empty_transcript_is_failure (payload : List (String × Json)) (f : UploadFile)
    (gm : String → GeminiOutcome)
    (hext : extract_transcript payload = some "")
    (hval : validateUpload (some f) = none) :
    transcribe_audio_from_upload (.jsonOk payload) =
      (none, some (TransError.noTranscriptField (payload.map Prod.fst)))
    ∧ (upload_pipeline (some f) (fun _ => .jsonOk payload) gm).1 =
        .transcriptionFailure (some (TransError.noTranscriptField (payload.map Prod.fst)))
    ∧ (upload_pipeline (some f) (fun _ => .jsonOk payload) gm).1.status = 500
    ∧ (upload_pipeline (some f) (fun _ => .jsonOk payload) gm).1.provider = some "gladia"
    ∧ (upload_pipeline (some f) (fun _ => .jsonOk payload) gm).2.2 = 0
    ∧ (transcribe_pipeline (some f) (fun _ => .jsonOk payload)).1 =
        .transcriptionFailure (some (TransError.noTranscriptField (payload.map Prod.fst)))
    ∧ (transcribe_pipeline (some f) (fun _ => .jsonOk payload)).1.status = 500 := by
  have hw : transcribe_audio_from_upload (.jsonOk payload) =
      (none, some (TransError.noTranscriptField (payload.map Prod.fst))) := by
    simp only [transcribe_audio_from_upload, hext]
    rfl
  have hu : upload_pipeline (some f) (fun _ => .jsonOk payload) gm =
      (.transcriptionFailure (some (TransError.noTranscriptField (payload.map Prod.fst))), 1, 0) := by
    simp only [upload_pipeline, hval, hw]
    rfl
  have ht : transcribe_pipeline (some f) (fun _ => .jsonOk payload) =
      (.transcriptionFailure (some (TransError.noTranscriptField (payload.map Prod.fst))), 1) := by
    simp only [transcribe_pipeline, hval, hw]
    rfl
  refine ⟨hw, by rw [hu], by rw [hu]; rfl, by rw [hu]; rfl, by rw [hu], by rw [ht], by rw [ht]; rfl⟩

/-- C10 witness: the payload `{"prediction": ""}` with a valid 2 KiB `.mp3`
upload produces the 500/gladia transcription-failure outcome and the
summarization counter stays at zero. -/
theorem C10_empty_transcript_is_failure_witness :
    transcribe_audio_from_upload (.jsonOk [("prediction", Json.str "")]) =
      (none, some (TransError.noTranscriptField (["prediction"])))
    ∧ (upload_pipeline (some ⟨"rapat.mp3", 2048⟩)
        (fun _ => .jsonOk [("prediction", Json.str "")]) gmStub).1 =
        .transcriptionFailure (some (TransError.noTranscriptField (["prediction"])))
    ∧ (upload_pipeline (some ⟨"rapat.mp3", 2048⟩)
        (fun _ => .jsonOk [("prediction", Json.str "")]) gmStub).1.status = 500
    ∧ (upload_pipeline (some ⟨"rapat.mp3", 2048⟩)
        (fun _ => .jsonOk [("prediction", Json.str "")]) gmStub).1.provider = some "gladia"
    ∧ (upload_pipeline (some ⟨"rapat.mp3", 2048⟩)
        (fun _ => .jsonOk [("prediction", Json.str "")]) gmStub).2.2 = 0
    ∧ (transcribe_pipeline (some ⟨"rapat.mp3", 2048⟩)
        (fun _ => .jsonOk [("prediction", Json.str "")])).1 =
        .transcriptionFailure (some (TransError.noTranscriptField (["prediction"])))
    ∧ (transcribe_pipeline (some ⟨"rapat.mp3", 2048⟩)
        (fun _ => .jsonOk [("prediction", Json.str "")])).1.status = 500 :=
  C10_empty_transcript_is_failure [("prediction", Json.str "")] ⟨"rapat.mp3", 2048⟩ gmStub
    rfl (by decide)

end Notula
